import Mathlib

/-!
# Verification of the lmdb++ error-classification and lifecycle layer

Shallow embedding of `src/lmdb++.h`, the C++11 procedural wrapper around
the LMDB engine.  The engine itself is a black box: each fallible engine
entry point returns an integer status code, modelled here by an oracle
giving the status of the k-th engine call; each engine call performed by a
wrapper is recorded in an explicit trace.  Thrown C++ exceptions are
modelled by `Except`: a wrapper that throws returns `Except.error e` with
`e` the exception object `lmdb::error::raise` would construct.

Strings stand for C byte strings; all concrete strings used are ASCII, so
`String.length` coincides with the C byte length.
-/

/-! ## Engine constants, from `<lmdb.h>` -/

/-- `MDB_SUCCESS`: the success sentinel of the engine. -/
def MDB_SUCCESS : Int := 0

/-- `MDB_KEYEXIST`: the "key already exists" status code. -/
def MDB_KEYEXIST : Int := -30799

/-- `MDB_NOTFOUND`: the "key/data pair not found" status code. -/
def MDB_NOTFOUND : Int := -30798

namespace lmdb

/-- `lmdb::mode` is `mdb_mode_t`, a numeric file permission mode. -/
abbrev mode := Nat

/-! ## Error handling (`lmdb::error` and subclasses)

The C++ code has a base class `lmdb::error` and two final subclasses
`lmdb::key_exist_error` and `lmdb::not_found_error` that add no data.
The dynamic type of an exception object is modelled by a variant tag. -/

/-- Which of the three exception classes an error object belongs to. -/
inductive ErrorKind
  | error
  | key_exist_error
  | not_found_error
  deriving DecidableEq, Repr

/-- An `lmdb::error` object (or subclass object): its dynamic class, the
`origin` string passed to the constructor (stored in the
`std::runtime_error` base and returned by `origin()`), and the LMDB return
code `rc` stored in `_code` (returned by `code()`). Both are set at
construction and there is no mutating member. -/
structure error where
  kind : ErrorKind
  origin : String
  code : Int
  deriving DecidableEq, Repr

/-- `lmdb::error::raise(origin, rc)`: the exception object thrown by the
classifier's `switch (rc)`: `MDB_KEYEXIST` throws `key_exist_error`,
`MDB_NOTFOUND` throws `not_found_error`, every other code throws the base
`lmdb::error`; each receives `{origin, rc}`. -/
def error.raise (origin : String) (rc : Int) : error :=
  if rc = MDB_KEYEXIST then ⟨ErrorKind.key_exist_error, origin, rc⟩
  else if rc = MDB_NOTFOUND then ⟨ErrorKind.not_found_error, origin, rc⟩
  else ⟨ErrorKind.error, origin, rc⟩

/-- `lmdb::error::raise` as a control-flow action: it is `[[noreturn]]` and
always throws, so its embedding always yields `Except.error`. -/
def error.raiseE (origin : String) (rc : Int) : Except error Unit :=
  Except.error (error.raise origin rc)

/-! ### `error::what()` and the shared thread-local buffer

`what()` formats `"%s: %s"` from `origin()` and `::mdb_strerror(code())`
with `std::snprintf` into `static thread_local char buffer[1024]`, and
returns a pointer to that buffer.  There is one such buffer per thread,
shared by every error object whose `what()` runs on that thread; each call
overwrites it entirely.  The buffer is modelled as a list of characters
(its C-string contents); the `const char*` that `what()` returns always
designates this buffer, so "reading the message through a previously
returned pointer" means reading the buffer's current contents.
`::mdb_strerror` belongs to the engine and is an uninterpreted function
parameter. -/

/-- `sizeof(buffer)` in `error::what()`. -/
def BUFFER_SIZE : Nat := 1024

/-- The per-thread `static thread_local char buffer[1024]` of
`error::what()`, as its current C-string contents. -/
structure ThreadBuffer where
  contents : List Char
  deriving DecidableEq, Repr

/-- The C string `snprintf(buffer, 1024, "%s: %s", origin, strerror code)`
leaves in the buffer: the concatenation, truncated to 1023 characters
(snprintf writes at most `size - 1` characters plus the terminator). -/
def formatMessage (strerror : Int → String) (e : error) : List Char :=
  ((e.origin ++ ": " ++ strerror e.code).toList).take (BUFFER_SIZE - 1)

/-- `lmdb::error::what()`: overwrites the thread's shared buffer with this
error's formatted message and returns a pointer to the buffer (modelled by
returning the buffer's new state; the previous contents `_tb` are
overwritten unconditionally). -/
def error.what (strerror : Int → String) (e : error) (_tb : ThreadBuffer) :
    ThreadBuffer :=
  ⟨formatMessage strerror e⟩

/-! ## The engine as an oracle, and the call trace

Every wrapper performs exactly the engine calls its body shows.  An
`EngineCall` records one engine entry point invocation with its arguments;
opaque handles (`MDB_env*`, `MDB_txn*`) are modelled as numbers (pointer
values), a nullable parent pointer as `Option`.  Out-parameters
(`MDB_env**` of `mdb_env_create`, `MDB_txn**` of `mdb_txn_begin`) are
written by the engine and never inspected by the wrapper, so they are not
modelled.  The status an engine call returns is chosen by an arbitrary
oracle indexed by the position of the call in the trace. -/

/-- One invocation of an engine entry point, with its arguments. -/
inductive EngineCall
  | mdb_env_create
  | mdb_env_open (env : Nat) (path : String) (flags : Nat) (mode : Nat)
  | mdb_env_close (env : Nat)
  | mdb_env_set_flags (env : Nat) (flags : Nat) (onoff : Int)
  | mdb_env_set_mapsize (env : Nat) (size : Nat)
  | mdb_env_set_maxreaders (env : Nat) (count : Nat)
  | mdb_env_set_maxdbs (env : Nat) (count : Nat)
  | mdb_env_sync (env : Nat) (force : Int)
  | mdb_txn_begin (env : Nat) (parent : Option Nat) (flags : Nat)
  | mdb_txn_commit (txn : Nat)
  | mdb_txn_abort (txn : Nat)
  | mdb_txn_reset (txn : Nat)
  | mdb_txn_renew (txn : Nat)
  deriving DecidableEq, Repr

/-- The engine's behaviour: the status code returned by the k-th engine
call of a run. -/
abbrev Oracle := Nat → Int

/-- The engine calls performed so far, in order. -/
abbrev Trace := List EngineCall

/-- Perform one status-returning engine call: the engine returns the
status the oracle assigns to this position, and the call is recorded. -/
def invokeEngine (oracle : Oracle) (c : EngineCall) (t : Trace) :
    Int × Trace :=
  (oracle t.length, t ++ [c])

/-- Perform one engine call whose C entry point returns `void` (no status
exists to inspect): the call is only recorded. -/
def invokeEngineVoid (c : EngineCall) (t : Trace) : Trace :=
  t ++ [c]

/-! ## Procedural interface: environment -/

/-- `lmdb::env_create`: calls `mdb_env_create`, raises on non-success. -/
def env_create (oracle : Oracle) (t : Trace) : Except error Unit × Trace :=
  let r := invokeEngine oracle EngineCall.mdb_env_create t
  if r.1 ≠ MDB_SUCCESS then (error.raiseE "mdb_env_create" r.1, r.2)
  else (Except.ok (), r.2)

/-- `lmdb::env_open`: calls `mdb_env_open`, raises on non-success. -/
def env_open (oracle : Oracle) (env : Nat) (path : String) (flags : Nat)
    (mode : mode) (t : Trace) : Except error Unit × Trace :=
  let r := invokeEngine oracle (EngineCall.mdb_env_open env path flags mode) t
  if r.1 ≠ MDB_SUCCESS then (error.raiseE "mdb_env_open" r.1, r.2)
  else (Except.ok (), r.2)

/-- `lmdb::env_close`: calls `mdb_env_close`, whose C signature returns
`void`; the wrapper never throws. -/
def env_close (env : Nat) (t : Trace) : Except error Unit × Trace :=
  (Except.ok (), invokeEngineVoid (EngineCall.mdb_env_close env) t)

/-- `lmdb::env_set_flags`: calls `mdb_env_set_flags` with `onoff ? 1 : 0`,
raises on non-success.  The C++ declaration gives `onoff` the default
argument `true`; see `env_set_flags_default`. -/
def env_set_flags (oracle : Oracle) (env : Nat) (flags : Nat) (onoff : Bool)
    (t : Trace) : Except error Unit × Trace :=
  let r := invokeEngine oracle
    (EngineCall.mdb_env_set_flags env flags (cond onoff 1 0)) t
  if r.1 ≠ MDB_SUCCESS then (error.raiseE "mdb_env_set_flags" r.1, r.2)
  else (Except.ok (), r.2)

/-- A call `lmdb::env_set_flags(env, flags)` with the `onoff` argument
omitted: C++ default-argument semantics substitute `true`. -/
def env_set_flags_default (oracle : Oracle) (env : Nat) (flags : Nat)
    (t : Trace) : Except error Unit × Trace :=
  env_set_flags oracle env flags true t

/-- `lmdb::env_set_map_size`: calls `mdb_env_set_mapsize`, raises on
non-success. -/
def env_set_map_size (oracle : Oracle) (env : Nat) (size : Nat) (t : Trace) :
    Except error Unit × Trace :=
  let r := invokeEngine oracle (EngineCall.mdb_env_set_mapsize env size) t
  if r.1 ≠ MDB_SUCCESS then (error.raiseE "mdb_env_set_mapsize" r.1, r.2)
  else (Except.ok (), r.2)

/-- `lmdb::env_set_max_readers`: calls `mdb_env_set_maxreaders`, raises on
non-success. -/
def env_set_max_readers (oracle : Oracle) (env : Nat) (count : Nat)
    (t : Trace) : Except error Unit × Trace :=
  let r := invokeEngine oracle (EngineCall.mdb_env_set_maxreaders env count) t
  if r.1 ≠ MDB_SUCCESS then (error.raiseE "mdb_env_set_maxreaders" r.1, r.2)
  else (Except.ok (), r.2)

/-- `lmdb::env_set_max_dbs`: calls `mdb_env_set_maxdbs`, raises on
non-success. -/
def env_set_max_dbs (oracle : Oracle) (env : Nat) (count : Nat) (t : Trace) :
    Except error Unit × Trace :=
  let r := invokeEngine oracle (EngineCall.mdb_env_set_maxdbs env count) t
  if r.1 ≠ MDB_SUCCESS then (error.raiseE "mdb_env_set_maxdbs" r.1, r.2)
  else (Except.ok (), r.2)

/-- `lmdb::env_sync`: calls `mdb_env_sync` with the `bool` argument
converted to `int` (`true` converts to 1), raises on non-success.  The C++
declaration gives `force` the default argument `true`; see
`env_sync_default`. -/
def env_sync (oracle : Oracle) (env : Nat) (force : Bool) (t : Trace) :
    Except error Unit × Trace :=
  let r := invokeEngine oracle (EngineCall.mdb_env_sync env (cond force 1 0)) t
  if r.1 ≠ MDB_SUCCESS then (error.raiseE "mdb_env_sync" r.1, r.2)
  else (Except.ok (), r.2)

/-- A call `lmdb::env_sync(env)` with the `force` argument omitted: C++
default-argument semantics substitute `true`. -/
def env_sync_default (oracle : Oracle) (env : Nat) (t : Trace) :
    Except error Unit × Trace :=
  env_sync oracle env true t

/-! ## Procedural interface: transactions -/

/-- `lmdb::txn_begin`: calls `mdb_txn_begin`, raises on non-success. -/
def txn_begin (oracle : Oracle) (env : Nat) (parent : Option Nat)
    (flags : Nat) (t : Trace) : Except error Unit × Trace :=
  let r := invokeEngine oracle (EngineCall.mdb_txn_begin env parent flags) t
  if r.1 ≠ MDB_SUCCESS then (error.raiseE "mdb_txn_begin" r.1, r.2)
  else (Except.ok (), r.2)

/-- `lmdb::txn_commit`: calls `mdb_txn_commit`, raises on non-success. -/
def txn_commit (oracle : Oracle) (txn : Nat) (t : Trace) :
    Except error Unit × Trace :=
  let r := invokeEngine oracle (EngineCall.mdb_txn_commit txn) t
  if r.1 ≠ MDB_SUCCESS then (error.raiseE "mdb_txn_commit" r.1, r.2)
  else (Except.ok (), r.2)

/-- `lmdb::txn_abort`: calls `mdb_txn_abort`, whose C signature returns
`void`; the wrapper never throws. -/
def txn_abort (txn : Nat) (t : Trace) : Except error Unit × Trace :=
  (Except.ok (), invokeEngineVoid (EngineCall.mdb_txn_abort txn) t)

/-- `lmdb::txn_reset`: calls `mdb_txn_reset`, whose C signature returns
`void`; the wrapper never throws. -/
def txn_reset (txn : Nat) (t : Trace) : Except error Unit × Trace :=
  (Except.ok (), invokeEngineVoid (EngineCall.mdb_txn_reset txn) t)

/-- `lmdb::txn_renew`: calls `mdb_txn_renew`, raises on non-success. -/
def txn_renew (oracle : Oracle) (txn : Nat) (t : Trace) :
    Except error Unit × Trace :=
  let r := invokeEngine oracle (EngineCall.mdb_txn_renew txn) t
  if r.1 ≠ MDB_SUCCESS then (error.raiseE "mdb_txn_renew" r.1, r.2)
  else (Except.ok (), r.2)

/-! ## Theorems -/

/-- C1: for every non-success status code `rc` and every origin string,
the error built by the classifier `lmdb::error::raise` has `code()`
returning exactly `rc`, and its variant is `key_exist_error` iff
`rc = MDB_KEYEXIST`, `not_found_error` iff `rc = MDB_NOTFOUND`, and the
generic `lmdb::error` otherwise — for all integer codes, including codes
outside any known enumeration. -/
theorem C1_classifier_code_and_variant (origin : String) (rc : Int)
    (h : rc ≠ MDB_SUCCESS) :
    (error.raise origin rc).code = rc ∧
    ((error.raise origin rc).kind = ErrorKind.key_exist_error ↔
      rc = MDB_KEYEXIST) ∧
    ((error.raise origin rc).kind = ErrorKind.not_found_error ↔
      rc = MDB_NOTFOUND) ∧
    ((error.raise origin rc).kind = ErrorKind.error ↔
      (rc ≠ MDB_KEYEXIST ∧ rc ≠ MDB_NOTFOUND)) := by
  clear h
  unfold error.raise
  split_ifs with h1 h2 <;> simp_all [MDB_KEYEXIST, MDB_NOTFOUND]

/-- C1 witness: the classification at the concrete code `MDB_KEYEXIST`. -/
theorem C1_classifier_code_and_variant_witness :
    (error.raise "mdb_put" (-30799)).code = -30799 ∧
    (error.raise "mdb_put" (-30799)).kind = ErrorKind.key_exist_error := by
  have h := C1_classifier_code_and_variant "mdb_put" (-30799) (by decide)
  exact ⟨h.1, h.2.1.mpr (by decide)⟩

/-- C2: the classifier entry point `lmdb::error::raise` never returns
normally: for every origin and code, its embedding yields
`Except.error` (the thrown exception), never `Except.ok`. -/
theorem C2_raise_never_returns (origin : String) (rc : Int) :
    error.raiseE origin rc = Except.error (error.raise origin rc) ∧
    (error.raiseE origin rc).isOk = false :=
  ⟨rfl, rfl⟩

/-- C4: `lmdb::env_close`, `lmdb::txn_abort`, and `lmdb::txn_reset` never
fail: for every handle and every prior trace they return normally
(`Except.ok`), having performed exactly the one void engine call their
bodies show — the corresponding engine primitives have no failure
return, so there is no status for the wrapper to inspect. -/
theorem C4_infallible_operations (env txn : Nat) (t : Trace) :
    env_close env t =
      (Except.ok (), t ++ [EngineCall.mdb_env_close env]) ∧
    txn_abort txn t =
      (Except.ok (), t ++ [EngineCall.mdb_txn_abort txn]) ∧
    txn_reset txn t =
      (Except.ok (), t ++ [EngineCall.mdb_txn_reset txn]) :=
  ⟨rfl, rfl, rfl⟩

/-- C7: an error constructed from an origin and a code is immutable
thereafter: `origin()` returns the origin supplied at construction and
`code()` returns the raw status supplied at construction, on all three
error variants (quantified by `k`), and in particular on every object the
classifier constructs. -/
theorem C7_error_accessors (origin : String) (rc : Int) (k : ErrorKind) :
    (error.mk k origin rc).origin = origin ∧
    (error.mk k origin rc).code = rc ∧
    (error.raise origin rc).origin = origin ∧
    (error.raise origin rc).code = rc := by
  refine ⟨rfl, rfl, ?_, ?_⟩ <;> unfold error.raise <;> split_ifs <;> rfl

/-- C3: every fallible wrapper operation (`env_create`, `env_open`,
`env_set_flags`, `env_set_map_size`, `env_set_max_readers`,
`env_set_max_dbs`, `env_sync`, `txn_begin`, `txn_commit`, `txn_renew`)
returns normally iff the single engine call it makes returns
`MDB_SUCCESS`; on any other status it fails immediately with the
classified error carrying that status; and the trace is extended by
exactly the one engine entry point invocation the wrapper's body shows —
no retries, no silent fallback.  Each conjunct characterizes one wrapper
completely, for an arbitrary engine oracle and prior trace. -/
theorem C3_fallible_wrappers_classify (oracle : Oracle) (t : Trace)
    (env txn : Nat) (path : String) (flags mode size count : Nat)
    (parent : Option Nat) (onoff force : Bool) :
    env_create oracle t =
      (if oracle t.length = MDB_SUCCESS then Except.ok ()
       else Except.error (error.raise "mdb_env_create" (oracle t.length)),
       t ++ [EngineCall.mdb_env_create]) ∧
    env_open oracle env path flags mode t =
      (if oracle t.length = MDB_SUCCESS then Except.ok ()
       else Except.error (error.raise "mdb_env_open" (oracle t.length)),
       t ++ [EngineCall.mdb_env_open env path flags mode]) ∧
    env_set_flags oracle env flags onoff t =
      (if oracle t.length = MDB_SUCCESS then Except.ok ()
       else Except.error (error.raise "mdb_env_set_flags" (oracle t.length)),
       t ++ [EngineCall.mdb_env_set_flags env flags (cond onoff 1 0)]) ∧
    env_set_map_size oracle env size t =
      (if oracle t.length = MDB_SUCCESS then Except.ok ()
       else Except.error (error.raise "mdb_env_set_mapsize" (oracle t.length)),
       t ++ [EngineCall.mdb_env_set_mapsize env size]) ∧
    env_set_max_readers oracle env count t =
      (if oracle t.length = MDB_SUCCESS then Except.ok ()
       else Except.error
         (error.raise "mdb_env_set_maxreaders" (oracle t.length)),
       t ++ [EngineCall.mdb_env_set_maxreaders env count]) ∧
    env_set_max_dbs oracle env count t =
      (if oracle t.length = MDB_SUCCESS then Except.ok ()
       else Except.error (error.raise "mdb_env_set_maxdbs" (oracle t.length)),
       t ++ [EngineCall.mdb_env_set_maxdbs env count]) ∧
    env_sync oracle env force t =
      (if oracle t.length = MDB_SUCCESS then Except.ok ()
       else Except.error (error.raise "mdb_env_sync" (oracle t.length)),
       t ++ [EngineCall.mdb_env_sync env (cond force 1 0)]) ∧
    txn_begin oracle env parent flags t =
      (if oracle t.length = MDB_SUCCESS then Except.ok ()
       else Except.error (error.raise "mdb_txn_begin" (oracle t.length)),
       t ++ [EngineCall.mdb_txn_begin env parent flags]) ∧
    txn_commit oracle txn t =
      (if oracle t.length = MDB_SUCCESS then Except.ok ()
       else Except.error (error.raise "mdb_txn_commit" (oracle t.length)),
       t ++ [EngineCall.mdb_txn_commit txn]) ∧
    txn_renew oracle txn t =
      (if oracle t.length = MDB_SUCCESS then Except.ok ()
       else Except.error (error.raise "mdb_txn_renew" (oracle t.length)),
       t ++ [EngineCall.mdb_txn_renew txn]) := by
  refine ⟨?_, ?_, ?_, ?_, ?_, ?_, ?_, ?_, ?_, ?_⟩ <;>
    rcases eq_or_ne (oracle t.length) MDB_SUCCESS with h | h <;>
      simp [env_create, env_open, env_set_flags, env_set_map_size,
        env_set_max_readers, env_set_max_dbs, env_sync, txn_begin,
        txn_commit, txn_renew, invokeEngine, error.raiseE, h]

/-- C10: the boolean parameters declared with default argument `true`
behave as documented when omitted: `env_set_flags(env, flags)` is the same
call as `env_set_flags(env, flags, true)`, which passes `1` to
`mdb_env_set_flags`, and `env_sync(env)` is the same call as
`env_sync(env, true)`, which passes `1` (a forced flush) to
`mdb_env_sync`. -/
theorem C10_default_arguments (oracle : Oracle) (env flags : Nat)
    (t : Trace) :
    env_set_flags_default oracle env flags t =
      env_set_flags oracle env flags true t ∧
    (env_set_flags oracle env flags true t).2 =
      t ++ [EngineCall.mdb_env_set_flags env flags 1] ∧
    env_sync_default oracle env t = env_sync oracle env true t ∧
    (env_sync oracle env true t).2 =
      t ++ [EngineCall.mdb_env_sync env 1] := by
  refine ⟨rfl, ?_, rfl, ?_⟩ <;>
    simp only [env_set_flags, env_sync, invokeEngine, cond_true] <;>
      split_ifs <;> rfl

/-- C9: the classifier is total over all integer codes, the success
sentinel included: `raise` at `MDB_SUCCESS` still throws, producing the
generic `lmdb::error` variant whose `code()` is `MDB_SUCCESS`, rather than
returning normally. -/
theorem C9_raise_on_success_code (origin : String) :
    error.raise origin MDB_SUCCESS =
      error.mk ErrorKind.error origin MDB_SUCCESS ∧
    error.raiseE origin MDB_SUCCESS =
      Except.error (error.mk ErrorKind.error origin MDB_SUCCESS) ∧
    (error.raiseE origin MDB_SUCCESS).isOk = false :=
  ⟨rfl, rfl, rfl⟩

/-- C5 counterexample: the claim that "a second close is made
unrepresentable (ownership consumed on close)" and that commit/abort make
the handle impossible to reference again is false of the code: the
procedural wrappers take raw handles, so closing environment handle 7
twice in a row is representable, both calls return normally, the trace
records two `mdb_env_close(7)` engine calls, and aborting transaction
handle 5 right after committing it is likewise representable and
performed. -/
theorem C5_counterexample :
    (env_close 7 []).1 = Except.ok () ∧
    (env_close 7 (env_close 7 []).2).1 = Except.ok () ∧
    (env_close 7 (env_close 7 []).2).2 =
      [EngineCall.mdb_env_close 7, EngineCall.mdb_env_close 7] ∧
    (txn_abort 5 (txn_commit (fun _ => 0) 5 []).2).1 = Except.ok () ∧
    (txn_abort 5 (txn_commit (fun _ => 0) 5 []).2).2 =
      [EngineCall.mdb_txn_commit 5, EngineCall.mdb_txn_abort 5] :=
  ⟨rfl, rfl, rfl, rfl, rfl⟩

/-- C5 (amended): the lifecycle operations take the native handle as a
plain value (raw pointer) and consume no ownership: the wrapper keeps no
state about a handle, so a second `env_close` or `txn_abort` on the same
handle, or an `txn_abort` right after `txn_commit` of the same handle, is
representable and is simply performed as another engine call that returns
normally — releasing each handle exactly once is the caller's obligation,
not structurally enforced by these wrappers. -/
theorem C5_amended_no_ownership_consumed (oracle : Oracle) (env txn : Nat)
    (t : Trace) :
    env_close env (env_close env t).2 =
      (Except.ok (),
       t ++ [EngineCall.mdb_env_close env, EngineCall.mdb_env_close env]) ∧
    txn_abort txn (txn_abort txn t).2 =
      (Except.ok (),
       t ++ [EngineCall.mdb_txn_abort txn, EngineCall.mdb_txn_abort txn]) ∧
    (txn_abort txn (txn_commit oracle txn t).2).2 =
      t ++ [EngineCall.mdb_txn_commit txn, EngineCall.mdb_txn_abort txn] := by
  refine ⟨?_, ?_, ?_⟩ <;>
    simp [env_close, txn_abort, txn_commit, invokeEngine, invokeEngineVoid] <;>
      split_ifs <;> simp

/-- C6 counterexample: the claim that formatting the message of a
different error (in the same thread) "does not alter or invalidate the
message previously obtained from the first error" is false of the code:
`what()` returns a pointer into the single `thread_local` buffer shared by
all errors of the thread.  Concretely, after `what()` of error A
("opA", code 1) the buffer holds A's message, but after a subsequent
`what()` of error B ("opB", code 2) on the same thread, the buffer that
A's previously returned pointer designates no longer holds A's message. -/
theorem C6_counterexample :
    (error.what (fun _ => "E") (error.raise "opA" 1)
        (ThreadBuffer.mk [])).contents =
      formatMessage (fun _ => "E") (error.raise "opA" 1) ∧
    ((error.what (fun _ => "E") (error.raise "opB" 2)
        (error.what (fun _ => "E") (error.raise "opA" 1)
          (ThreadBuffer.mk []))).contents ==
      formatMessage (fun _ => "E") (error.raise "opA" 1)) = false :=
  ⟨rfl, by decide⟩

/-- C6 (amended): the text of an error's message is a pure function of
that error's own origin and code alone — `what()` writes the same message
whatever the buffer held before — but the message is delivered through the
one buffer shared by all errors of the thread, which each `what()` call
overwrites entirely; so the message previously obtained from another error
on the same thread is invalidated (message safety holds only across
threads, each thread having its own buffer). -/
theorem C6_amended_message_pure_buffer_shared (strerror : Int → String)
    (e : error) (tb tb2 : ThreadBuffer) :
    error.what strerror e tb = error.what strerror e tb2 ∧
    (error.what strerror e tb).contents = formatMessage strerror e :=
  ⟨rfl, rfl⟩

set_option maxRecDepth 100000 in
/-- C8 counterexample: the claim that the message always equals the
concatenation of the origin with the engine's text for the code is false
of the code: `snprintf` into the 1024-byte buffer truncates. With a
1100-character origin and "err" as the engine's text, the full
concatenation has 1105 characters but the buffer holds only its first
1023. -/
theorem C8_counterexample :
    (error.what (fun _ => "err")
        (error.raise (String.mk (List.replicate 1100 'a')) 5)
        (ThreadBuffer.mk [])).contents.length = 1023 ∧
    (String.mk (List.replicate 1100 'a') ++ ": " ++
      "err").toList.length = 1105 ∧
    ((error.what (fun _ => "err")
        (error.raise (String.mk (List.replicate 1100 'a')) 5)
        (ThreadBuffer.mk [])).contents ==
      (String.mk (List.replicate 1100 'a') ++ ": " ++
        "err").toList) = false := by
  refine ⟨?_, ?_, ?_⟩ <;> decide

/-- C8 (amended): for every error with origin `o` and code `c`, the
message `what()` formats is the concatenation of `o`, the separator ": ",
and the engine's text for `c`, truncated to the 1023 characters the
1024-byte buffer can hold — so it equals the full concatenation exactly
when that concatenation fits the buffer. -/
theorem C8_amended_message_format (strerror : Int → String) (e : error)
    (tb : ThreadBuffer)
    (h : (e.origin ++ ": " ++ strerror e.code).toList.length ≤
      BUFFER_SIZE - 1) :
    (error.what strerror e tb).contents =
      (e.origin ++ ": " ++ strerror e.code).toList := by
  show ((e.origin ++ ": " ++ strerror e.code).toList).take (BUFFER_SIZE - 1) =
    (e.origin ++ ": " ++ strerror e.code).toList
  exact List.take_of_length_le h

/-- C8 witness: the amended format law at a concrete short message. -/
theorem C8_amended_message_format_witness :
    (error.what (fun _ => "No such file or directory")
        (error.raise "mdb_env_open" 2) (ThreadBuffer.mk [])).contents =
      ((error.raise "mdb_env_open" 2).origin ++ ": " ++
        "No such file or directory").toList :=
  C8_amended_message_format (fun _ => "No such file or directory")
    (error.raise "mdb_env_open" 2) (ThreadBuffer.mk []) (by decide)

end lmdb
